import Mathlib

/-!
Shallow embedding of the lead-pipeline backend (blackkeyx-backend):
the lead intake flow, the stage-update state machine with history
logging, and the filtered lead/deal search engine.

Database state is modelled as lists of rows plus a logical clock used
for `created_at` / `updated_at` / `changed_at` timestamps; UUID ids are
modelled as natural numbers supplied by the caller (uuid4 generation).
Python truthiness on optional strings is modelled explicitly.
-/

namespace BKX

/-- Python truthiness of an optional string: `None` and `""` are falsy. -/
def pyTruthyStr : Option String → Bool
  | none => false
  | some s => !s.isEmpty

/-- Python `a or b` on optional strings (used for `x_forwarded_for or host`). -/
def pyOrOptStr (a b : Option String) : Option String :=
  if pyTruthyStr a then a else b

/-- `parse_capital` from `app/routers/leads.py`: maps a capacity bracket
string to its midpoint; `None`, empty, `other:`-prefixed and unrecognized
strings map to `None`. -/
def parse_capital (capital_str : Option String) : Option Int :=
  match capital_str with
  | none => none
  | some s =>
    if s.isEmpty then none
    else if List.isPrefixOf "other:".data s.data then none
    else if s = "$100K-$250K" then some 175000
    else if s = "$250K-$500K" then some 375000
    else if s = "$500K-$1M" then some 750000
    else if s = "$1M+" then some 1500000
    else none

/-- `parse_capital_to_int` from `app/services/lead_processor.py`
(textually identical logic to `parse_capital`). -/
def parse_capital_to_int (capital_str : Option String) : Option Int :=
  match capital_str with
  | none => none
  | some s =>
    if s.isEmpty then none
    else if List.isPrefixOf "other:".data s.data then none
    else if s = "$100K-$250K" then some 175000
    else if s = "$250K-$500K" then some 375000
    else if s = "$500K-$1M" then some 750000
    else if s = "$1M+" then some 1500000
    else none

/-- Qualification payload (`QualificationData` in `app/schemas/lead.py`). -/
structure QualificationData where
  investorType : String
  capacity : String
  fit : String
  process : String
  timing : String
  score : Int
  bucket : String
  deriving Repr, DecidableEq

/-- Lead submission payload (`LeadSubmissionRequest` in `app/schemas/lead.py`). -/
structure LeadSubmissionRequest where
  phoneNumber : String
  consent : Bool
  timestamp : String
  qualification : Option QualificationData := none
  investmentTimeline : Option String := none
  capitalAvailable : Option String := none
  investmentPreferences : Option (List String) := none
  deriving Repr, DecidableEq

/-- Response of the submit-lead endpoint (`LeadSubmissionResponse`). -/
structure LeadSubmissionResponse where
  success : Bool
  message : String
  leadId : String
  deriving Repr, DecidableEq

/-- `InvestorProfile` row (`app/models/investor.py`). -/
structure InvestorProfile where
  id : Nat
  phone : String
  name : Option String := none
  timeline : Option String := none
  capital_available : Option Int := none
  investment_preferences : List String := []
  investment_thesis : Option String := none
  risk_tolerance : Option String := none
  stage : String := "new_lead"
  lead_score : Int := 0
  source : String := "web"
  investor_type : Option String := none
  capacity : Option String := none
  fit : Option String := none
  process : Option String := none
  timing : Option String := none
  qualification_bucket : Option String := none
  qualification_score : Option Int := none
  created_at : Nat := 0
  updated_at : Nat := 0
  deriving Repr, DecidableEq

/-- `Consent` row (`app/models/consent.py`). -/
structure ConsentRow where
  investor_id : Nat
  consent_text : String
  ip_address : Option String
  user_agent : Option String
  created_at : Nat
  deriving Repr, DecidableEq

/-- `StageHistory` row (`app/models/consent.py`). -/
structure StageHistoryRow where
  investor_id : Nat
  from_stage : Option String
  to_stage : String
  changed_by : String
  notes : Option String
  changed_at : Nat
  deriving Repr, DecidableEq

/-- Database state: the tables the pipeline core touches, plus a logical
clock supplying monotone timestamps. -/
structure DB where
  investors : List InvestorProfile := []
  consents : List ConsentRow := []
  stage_history : List StageHistoryRow := []
  clock : Nat := 0
  deriving Repr, DecidableEq

/-- `BaseRepository.get`: select by primary key. -/
def db_get (db : DB) (id : Nat) : Option InvestorProfile :=
  db.investors.find? (fun i => i.id == id)

/-- `InvestorRepository.get_by_phone`: first investor with the phone. -/
def get_by_phone (db : DB) (phone : String) : Option InvestorProfile :=
  db.investors.find? (fun i => i.phone == phone)

/-- `BaseRepository.create`: insert the row; `created_at` / `updated_at`
are set by the database at flush time. -/
def repo_create (db : DB) (inv : InvestorProfile) : InvestorProfile × DB :=
  let inv := { inv with created_at := db.clock, updated_at := db.clock }
  (inv, { db with investors := db.investors ++ [inv], clock := db.clock + 1 })

/-- `InvestorRepository.add_consent`: unconditional insert (FK trusted). -/
def add_consent (db : DB) (investor_id : Nat) (consent_text : String)
    (ip_address user_agent : Option String) : ConsentRow × DB :=
  let row : ConsentRow :=
    { investor_id := investor_id, consent_text := consent_text,
      ip_address := ip_address, user_agent := user_agent,
      created_at := db.clock }
  (row, { db with consents := db.consents ++ [row], clock := db.clock + 1 })

/-- `InvestorRepository.update_stage`: read current stage, write the new
stage, append one StageHistory row recording the transition; `none` and
no write when the id does not exist. -/
def update_stage (db : DB) (investor_id : Nat) (new_stage : String)
    (changed_by : String := "admin") (notes : Option String := none) :
    Option InvestorProfile × DB :=
  match db_get db investor_id with
  | none => (none, db)
  | some investor =>
    let old_stage := investor.stage
    let updated := { investor with stage := new_stage, updated_at := db.clock }
    let stage_change : StageHistoryRow :=
      { investor_id := investor_id, from_stage := some old_stage,
        to_stage := new_stage, changed_by := changed_by, notes := notes,
        changed_at := db.clock }
    (some updated,
     { db with
        investors := db.investors.map (fun i => if i.id == investor_id then updated else i),
        stage_history := db.stage_history ++ [stage_change],
        clock := db.clock + 1 })

/-- StageHistory rows of one investor, in insertion (= `changed_at`) order. -/
def history_of (db : DB) (id : Nat) : List StageHistoryRow :=
  db.stage_history.filter (fun r => r.investor_id == id)

/-- Consent rows of one investor. -/
def consents_of (db : DB) (id : Nat) : List ConsentRow :=
  db.consents.filter (fun r => r.investor_id == id)

/-- Build the investor row exactly as `submit_lead` / `process_lead` do
before saving: parse capital, copy qualification fields when present. -/
def build_investor (newId : Nat) (lead_data : LeadSubmissionRequest)
    (capital : Option String → Option Int) : InvestorProfile :=
  let capital_available :=
    match lead_data.qualification with
    | some q => capital (some q.capacity)
    | none =>
      if pyTruthyStr lead_data.capitalAvailable then capital lead_data.capitalAvailable
      else none
  let investor : InvestorProfile :=
    { id := newId, phone := lead_data.phoneNumber,
      timeline := lead_data.investmentTimeline,
      capital_available := capital_available,
      investment_preferences := lead_data.investmentPreferences.getD [],
      stage := "new_lead", source := "web" }
  match lead_data.qualification with
  | none => investor
  | some q =>
    { investor with
        investor_type := some q.investorType, capacity := some q.capacity,
        fit := some q.fit, process := some q.process, timing := some q.timing,
        qualification_bucket := some q.bucket,
        qualification_score := some q.score, lead_score := q.score }

/-- An HTTP error: status code and detail message (`HTTPException`). -/
structure HttpError where
  status : Nat
  detail : String
  deriving Repr, DecidableEq

/-- `submit_lead` endpoint (`app/routers/leads.py`): consent check,
idempotency check by phone, investor + consent + creation-StageHistory
writes. `newId` stands for the generated uuid4. -/
def submit_lead (db : DB) (newId : Nat) (lead_data : LeadSubmissionRequest)
    (x_forwarded_for : Option String) (client_host : Option String)
    (user_agent : Option String) :
    Except HttpError LeadSubmissionResponse × DB :=
  if !lead_data.consent then
    (.error { status := 400, detail := "Consent is required for lead submission" }, db)
  else
    match get_by_phone db lead_data.phoneNumber with
    | some existing =>
      (.ok { success := true, message := "Lead already exists",
             leadId := toString existing.id }, db)
    | none =>
      let investor := build_investor newId lead_data parse_capital
      let (investor, db) := repo_create db investor
      let ip_address := pyOrOptStr x_forwarded_for client_host
      let (_, db) := add_consent db investor.id
        "TCPA consent granted via web chatbot" ip_address user_agent
      let stage_change : StageHistoryRow :=
        { investor_id := investor.id, from_stage := none,
          to_stage := "new_lead", changed_by := "system",
          notes := some "Lead submitted via chatbot",
          changed_at := db.clock }
      let db := { db with stage_history := db.stage_history ++ [stage_change],
                          clock := db.clock + 1 }
      (.ok { success := true, message := "Lead submitted successfully",
             leadId := toString investor.id }, db)

/-- `LeadProcessor.process_lead` (`app/services/lead_processor.py`):
idempotency check by phone, then investor and consent writes. Note: the
method body records no StageHistory row, although its docstring lists
"Record initial stage change" as step 4. -/
def process_lead (db : DB) (newId : Nat) (lead_data : LeadSubmissionRequest)
    (ip_address : Option String := none) (user_agent : Option String := none) :
    InvestorProfile × DB :=
  match get_by_phone db lead_data.phoneNumber with
  | some existing => (existing, db)
  | none =>
    let investor := build_investor newId lead_data parse_capital_to_int
    let (investor, db) := repo_create db investor
    let (_, db) := add_consent db investor.id
      "TCPA consent granted via web chatbot" ip_address user_agent
    (investor, db)

/-- Single-quote character, for rendering Python list literals. -/
def sq : String := String.singleton (Char.ofNat 39)

/-- Python `str` of a list of strings (as interpolated into the invalid
stage message by the f-string in `update_lead_stage`). -/
def pyListStr (xs : List String) : String :=
  "[" ++ String.intercalate ", " (xs.map (fun s => sq ++ s ++ sq)) ++ "]"

/-- `VALID_STAGES` from `app/routers/admin.py`. -/
def VALID_STAGES : List String :=
  ["new_lead", "call_dispatched", "call_completed", "insights_extracted",
   "deals_matched", "under_review", "closed"]

/-- The 400 detail produced for an invalid stage value. -/
def invalid_stage_detail : String :=
  "Invalid stage. Must be one of: " ++ pyListStr VALID_STAGES

/-- `StageUpdateRequest` (`app/schemas/investor.py`). -/
structure StageUpdateRequest where
  stage : String
  notes : Option String := none
  deriving Repr, DecidableEq

/-- Qualification block of the detail response. -/
structure InvestorQualificationResponse where
  investorType : String
  capacity : String
  fit : String
  process : String
  timing : String
  score : Int
  bucket : String
  deriving Repr, DecidableEq

/-- One stage-history entry of the detail response. -/
structure StageChangeResponse where
  fromStage : Option String
  toStage : String
  changedBy : String
  notes : Option String
  changedAt : Nat
  deriving Repr, DecidableEq

/-- Lead detail response (`LeadWithDetailsResponse`), restricted to the
scalar fields and the relations the pipeline core populates. -/
structure LeadWithDetailsResponse where
  id : String
  name : Option String
  phone : String
  timeline : Option String
  capitalAvailable : Option Int
  investmentPreferences : List String
  stage : String
  leadScore : Int
  source : String
  createdAt : Nat
  updatedAt : Nat
  stageHistory : List StageChangeResponse
  qualification : Option InvestorQualificationResponse
  deriving Repr, DecidableEq

/-- Python `a or b` where `a` is an optional string and `b` a string
(`lead.capacity or ""`). -/
def pyOrStr (a : Option String) (b : String) : String :=
  match a with
  | some s => if s.isEmpty then b else s
  | none => b

/-- Python `a or b` where `a` is an optional int and `b` an int
(`lead.qualification_score or lead.lead_score`): `None` and `0` are falsy. -/
def pyOrInt (a : Option Int) (b : Int) : Int :=
  match a with
  | some x => if x = 0 then b else x
  | none => b

/-- `_investor_to_response` from `app/routers/admin.py`: the qualification
block is built only when `lead.investor_type and lead.qualification_bucket`
is truthy. -/
def investor_to_response (lead : InvestorProfile)
    (stage_history : List StageHistoryRow) : LeadWithDetailsResponse :=
  let qualification :=
    if pyTruthyStr lead.investor_type && pyTruthyStr lead.qualification_bucket then
      some { investorType := lead.investor_type.getD "",
             capacity := pyOrStr lead.capacity "",
             fit := pyOrStr lead.fit "",
             process := pyOrStr lead.process "",
             timing := pyOrStr lead.timing "",
             score := pyOrInt lead.qualification_score lead.lead_score,
             bucket := lead.qualification_bucket.getD "" }
    else none
  { id := toString lead.id, name := lead.name, phone := lead.phone,
    timeline := lead.timeline, capitalAvailable := lead.capital_available,
    investmentPreferences := lead.investment_preferences,
    stage := lead.stage, leadScore := lead.lead_score, source := lead.source,
    createdAt := lead.created_at, updatedAt := lead.updated_at,
    stageHistory := stage_history.map (fun r =>
      { fromStage := r.from_stage, toStage := r.to_stage,
        changedBy := r.changed_by, notes := r.notes,
        changedAt := r.changed_at }),
    qualification := qualification }

/-- `InvestorRepository.get_with_relations`: the lead plus its stage
history, which the relationship orders by `changed_at` descending. -/
def get_with_relations (db : DB) (id : Nat) :
    Option (InvestorProfile × List StageHistoryRow) :=
  (db_get db id).map (fun inv => (inv, (history_of db id).reverse))

/-- `update_lead_stage` endpoint (`app/routers/admin.py`): validate the
stage against `VALID_STAGES` before any repository call, then update via
the repository and re-read with relations. The third component records
the repository calls performed, in order. -/
def update_lead_stage (db : DB) (lead_id : Nat)
    (stage_data : StageUpdateRequest) :
    Except HttpError LeadWithDetailsResponse × DB × List String :=
  if stage_data.stage ∉ VALID_STAGES then
    (.error { status := 400, detail := invalid_stage_detail }, db, [])
  else
    let (res, db) := update_stage db lead_id stage_data.stage "admin" stage_data.notes
    match res with
    | none => (.error { status := 404, detail := "Lead not found" }, db,
               ["update_stage"])
    | some _ =>
      match get_with_relations db lead_id with
      | some (lead, hist) =>
        (.ok (investor_to_response lead hist), db,
         ["update_stage", "get_with_relations"])
      | none =>
        (.error { status := 404, detail := "Lead not found" }, db,
         ["update_stage", "get_with_relations"])

/-- Case-sensitive substring test over character lists (SQL `LIKE %s%`
via `ColumnOperators.contains`). -/
def charsHas : List Char → List Char → Bool
  | [], needle => needle.isEmpty
  | c :: t, needle => List.isPrefixOf needle (c :: t) || charsHas t needle

/-- Case-sensitive substring test on strings. -/
def strContains (hay needle : String) : Bool :=
  charsHas hay.data needle.data

/-- Case-insensitive substring test (SQL `ilike` with `%` wrapping). -/
def strContainsCI (hay needle : String) : Bool :=
  charsHas (hay.data.map Char.toLower) (needle.data.map Char.toLower)

/-- The conjunction of filters `search_leads` applies: stage equality,
inclusive score range, inclusive capital range (NULL capital never
matches a capital bound), inclusive created range, phone substring. -/
def lead_matches (stage : Option String)
    (score_min score_max capital_min capital_max : Option Int)
    (date_from date_to : Option Nat) (search : Option String)
    (p : InvestorProfile) : Bool :=
  (match stage with
   | some s => if s.isEmpty then true else p.stage == s
   | none => true) &&
  (match score_min with
   | some m => decide (m ≤ p.lead_score)
   | none => true) &&
  (match score_max with
   | some m => decide (p.lead_score ≤ m)
   | none => true) &&
  (match capital_min with
   | some m => match p.capital_available with
     | some c => decide (m ≤ c)
     | none => false
   | none => true) &&
  (match capital_max with
   | some m => match p.capital_available with
     | some c => decide (c ≤ m)
     | none => false
   | none => true) &&
  (match date_from with
   | some d => decide (d ≤ p.created_at)
   | none => true) &&
  (match date_to with
   | some d => decide (p.created_at ≤ d)
   | none => true) &&
  (match search with
   | some s => if s.isEmpty then true else strContains p.phone s
   | none => true)

/-- The three sortable columns. -/
inductive SortKey where
  | created_at | lead_score | capital_available
  deriving Repr, DecidableEq

/-- `sort_column_map.get(sort_by, InvestorProfile.created_at)`:
unrecognized keys fall back to `created_at`. -/
def sort_column (sort_by : String) : SortKey :=
  if sort_by = "created_at" then .created_at
  else if sort_by = "lead_score" then .lead_score
  else if sort_by = "capital_available" then .capital_available
  else .created_at

/-- Ascending comparison on one sort column (NULL capital sorts last,
matching the relational NULLS LAST default for ascending order). -/
def keyAscLE : SortKey → InvestorProfile → InvestorProfile → Bool
  | .created_at, a, b => decide (a.created_at ≤ b.created_at)
  | .lead_score, a, b => decide (a.lead_score ≤ b.lead_score)
  | .capital_available, a, b =>
    match a.capital_available, b.capital_available with
    | none, none => true
    | none, some _ => false
    | some _, none => true
    | some x, some y => decide (x ≤ y)

/-- Insert into a sorted list (helper of the sort model). -/
def insertLe (le : α → α → Bool) (a : α) : List α → List α
  | [] => [a]
  | b :: t => if le a b then a :: b :: t else b :: insertLe le a t

/-- Insertion sort by a boolean comparison (the ORDER BY model). -/
def sortWith (le : α → α → Bool) : List α → List α
  | [] => []
  | a :: t => insertLe le a (sortWith le t)

/-- `InvestorRepository.search_leads`: filter, count before pagination,
sort by the resolved column and order, then offset/limit. Returns
(page of leads, total matching count). -/
def search_leads (db : DB) (stage : Option String := none)
    (score_min : Option Int := none) (score_max : Option Int := none)
    (capital_min : Option Int := none) (capital_max : Option Int := none)
    (date_from : Option Nat := none) (date_to : Option Nat := none)
    (search : Option String := none)
    (sort_by : String := "created_at") (sort_order : String := "desc")
    (skip : Nat := 0) (limit : Nat := 20) :
    List InvestorProfile × Nat :=
  let filtered := db.investors.filter
    (lead_matches stage score_min score_max capital_min capital_max
      date_from date_to search)
  let total := filtered.length
  let col := sort_column sort_by
  let sorted :=
    if sort_order == "desc" then sortWith (fun a b => keyAscLE col b a) filtered
    else sortWith (keyAscLE col) filtered
  ((sorted.drop skip).take limit, total)

/-- `Property` row (`app/models/property.py`), restricted to the columns
the deal search touches. -/
structure PropertyRow where
  id : Nat
  name : String
  deal_type : String
  summary : Option String := none
  minimum_investment : Option Int := none
  status : String := "active"
  created_at : Nat := 0
  deriving Repr, DecidableEq

/-- The conjunction of filters `search_deals` applies (source order):
status equality, deal_type equality, minimum_investment ceiling (NULL
never matches the ceiling), and the free-text `name OR summary`
case-insensitive substring match (NULL summary matches only via name). -/
def deal_matches (status deal_type : Option String)
    (min_investment_max : Option Int) (search : Option String)
    (p : PropertyRow) : Bool :=
  (match status with
   | some s => if s.isEmpty then true else p.status == s
   | none => true) &&
  (match deal_type with
   | some s => if s.isEmpty then true else p.deal_type == s
   | none => true) &&
  (match min_investment_max with
   | some m => match p.minimum_investment with
     | some v => decide (v ≤ m)
     | none => false
   | none => true) &&
  (match search with
   | some s =>
     if s.isEmpty then true
     else strContainsCI p.name s ||
          (match p.summary with
           | some t => strContainsCI t s
           | none => false)
   | none => true)

/-- `PropertyRepository.search_deals`: filter, count before pagination,
order by `created_at` descending, offset/limit. -/
def search_deals (deals : List PropertyRow) (status : Option String := none)
    (deal_type : Option String := none)
    (min_investment_max : Option Int := none)
    (search : Option String := none)
    (skip : Nat := 0) (limit : Nat := 100) :
    List PropertyRow × Nat :=
  let filtered := deals.filter (deal_matches status deal_type min_investment_max search)
  let total := filtered.length
  let sorted := sortWith (fun a b : PropertyRow => decide (b.created_at ≤ a.created_at)) filtered
  ((sorted.drop skip).take limit, total)

/-- Boolean chain check: each row's `from_stage` equals the previous
row's `to_stage`, starting from `prev` (none at creation). -/
def chainedFrom : Option String → List StageHistoryRow → Bool
  | _, [] => true
  | prev, r :: rest => (r.from_stage == prev) && chainedFrom (some r.to_stage) rest

/-- The `to_stage` of the last row, with `p` as the value for an empty list. -/
def lastTo : Option String → List StageHistoryRow → Option String
  | p, [] => p
  | _, r :: rest => lastTo (some r.to_stage) rest

/-- One stage-update request at the repository level. -/
structure StageUpd where
  stage : String
  changed_by : String
  notes : Option String
  deriving Repr, DecidableEq

/-- Apply a sequence of repository `update_stage` calls to one lead. -/
def apply_updates (db : DB) (id : Nat) : List StageUpd → DB
  | [] => db
  | u :: rest => apply_updates (update_stage db id u.stage u.changed_by u.notes).2 id rest

/-- Apply the stage-update endpoint `k` times with the same stage value. -/
def repeat_update (db : DB) (id : Nat) (s : String) (notes : Option String) :
    Nat → DB
  | 0 => db
  | k + 1 => repeat_update (update_lead_stage db id { stage := s, notes := notes }).2.1 id s notes k

/-- The investor row as persisted by a fresh-phone `submit_lead` /
`process_lead` run (timestamps set at flush time). -/
def inv_created (db : DB) (newId : Nat) (req : LeadSubmissionRequest)
    (capital : Option String → Option Int) : InvestorProfile :=
  { build_investor newId req capital with
      created_at := db.clock, updated_at := db.clock }

/-- The consent row persisted by a fresh-phone `submit_lead` run. -/
def consent_created (db : DB) (newId : Nat)
    (xff host ua : Option String) : ConsentRow :=
  { investor_id := newId,
    consent_text := "TCPA consent granted via web chatbot",
    ip_address := pyOrOptStr xff host, user_agent := ua,
    created_at := db.clock + 1 }

/-- The creation StageHistory row persisted by a fresh-phone
`submit_lead` run. -/
def creation_row (db : DB) (newId : Nat) : StageHistoryRow :=
  { investor_id := newId, from_stage := none, to_stage := "new_lead",
    changed_by := "system", notes := some "Lead submitted via chatbot",
    changed_at := db.clock + 1 + 1 }

/-- Invariant tying a lead to its history: the lead is present, its
history chains from the creation entry, and the last entry's `to_stage`
is the lead's current stage. -/
def stage_inv (db : DB) (id : Nat) (inv : InvestorProfile) : Prop :=
  db_get db id = some inv ∧
  chainedFrom none (history_of db id) = true ∧
  lastTo none (history_of db id) = some inv.stage

lemma length_insertLe (le : α → α → Bool) (a : α) (l : List α) :
    (insertLe le a l).length = l.length + 1 := by
  induction l with
  | nil => rfl
  | cons b t ih =>
    simp only [insertLe]
    split
    · simp
    · simp [ih]

lemma length_sortWith (le : α → α → Bool) (l : List α) :
    (sortWith le l).length = l.length := by
  induction l with
  | nil => rfl
  | cons a t ih => simp [sortWith, length_insertLe, ih]

lemma find?_append_none {α} (p : α → Bool) (l₁ l₂ : List α)
    (h : l₁.find? p = none) : (l₁ ++ l₂).find? p = l₂.find? p := by
  induction l₁ with
  | nil => rfl
  | cons a t ih =>
    have ht : t.find? p = none := by
      refine List.find?_eq_none.mpr ?_
      intro x hx
      exact List.find?_eq_none.mp h x (by simp [hx])
    have hpa : p a = false := by
      have := List.find?_eq_none.mp h a (by simp)
      simpa using this
    simp [List.find?_cons, hpa, ih ht]

/-- C6: the capacity bracket is mapped to `capital_available` by the
fixed table $100K-$250K → 175000, $250K-$500K → 375000, $500K-$1M →
750000, $1M+ → 1500000; every other string (including any string with
the `other:` tag and the absent case) resolves to null rather than an
error, and `parse_capital_to_int` (the Lead Intake Service copy) agrees
with `parse_capital` (the router copy) everywhere. -/
theorem parse_capital_table :
    (parse_capital (some "$100K-$250K") = some 175000 ∧
     parse_capital (some "$250K-$500K") = some 375000 ∧
     parse_capital (some "$500K-$1M") = some 750000 ∧
     parse_capital (some "$1M+") = some 1500000 ∧
     parse_capital none = none ∧
     (∀ s : String,
        s ∉ (["$100K-$250K", "$250K-$500K", "$500K-$1M", "$1M+"] : List String) →
        parse_capital (some s) = none)) ∧
    (∀ c, parse_capital_to_int c = parse_capital c) := by
  refine ⟨⟨by decide, by decide, by decide, by decide, rfl, ?_⟩, ?_⟩
  · intro s hs
    simp only [List.mem_cons, List.not_mem_nil, or_false, not_or] at hs
    obtain ⟨h1, h2, h3, h4⟩ := hs
    simp [parse_capital, h1, h2, h3, h4]
  · intro c
    cases c <;> rfl

/-- Witness for C6 at concrete inputs, including an `other:`-tagged
bracket. -/
theorem parse_capital_table_witness :
    parse_capital (some "other:crypto") = none ∧
    parse_capital_to_int (some "$250K-$500K") = some 375000 := by
  constructor
  · exact parse_capital_table.1.2.2.2.2.2 "other:crypto" (by decide)
  · rw [parse_capital_table.2]
    exact parse_capital_table.1.2.1

/-- C7: a `search_leads` call with a sort key outside
{created_at, lead_score, capital_available} sorts by `created_at` and
does not fail: it returns exactly the result of the same call with
sort key `created_at`. -/
theorem search_leads_sort_fallback (db : DB) (stage : Option String)
    (score_min score_max capital_min capital_max : Option Int)
    (date_from date_to : Option Nat) (search : Option String)
    (sort_by sort_order : String) (skip limit : Nat)
    (h : sort_by ∉ (["created_at", "lead_score", "capital_available"] : List String)) :
    search_leads db stage score_min score_max capital_min capital_max
      date_from date_to search sort_by sort_order skip limit =
    search_leads db stage score_min score_max capital_min capital_max
      date_from date_to search "created_at" sort_order skip limit := by
  simp only [List.mem_cons, List.not_mem_nil, or_false, not_or] at h
  obtain ⟨h1, h2, h3⟩ := h
  have hcol : sort_column sort_by = SortKey.created_at := by
    simp [sort_column, h1, h2, h3]
  have hcol2 : sort_column "created_at" = SortKey.created_at := rfl
  simp only [search_leads, hcol, hcol2]

/-- Witness for C7: an unrecognized sort key on a concrete database. -/
theorem search_leads_sort_fallback_witness :
    search_leads
      { investors := [{ id := 1, phone := "5550000001", lead_score := 7 },
                      { id := 2, phone := "5550000002", lead_score := 3 }] }
      none none none none none none none none "phone" "asc" 0 20 =
    search_leads
      { investors := [{ id := 1, phone := "5550000001", lead_score := 7 },
                      { id := 2, phone := "5550000002", lead_score := 3 }] }
      none none none none none none none none "created_at" "asc" 0 20 :=
  search_leads_sort_fallback _ none none none none none none none none
    "phone" "asc" 0 20 (by decide)

/-- C8: the detail response carries a populated qualification block
exactly when both `investor_type` and `qualification_bucket` are set to
a non-empty value on the lead (Python truthiness of the two fields); in
particular a lead without `qualification_bucket` renders with no
qualification block. -/
theorem qualification_block_presence (lead : InvestorProfile)
    (hist : List StageHistoryRow) :
    ((investor_to_response lead hist).qualification.isSome
       = (pyTruthyStr lead.investor_type && pyTruthyStr lead.qualification_bucket)) ∧
    (lead.qualification_bucket = none →
       (investor_to_response lead hist).qualification = none) := by
  constructor
  · by_cases h : pyTruthyStr lead.investor_type && pyTruthyStr lead.qualification_bucket
    · simp [investor_to_response, h]
    · simp only [Bool.not_eq_true] at h
      simp [investor_to_response, h]
  · intro hb
    simp [investor_to_response, hb, pyTruthyStr]

/-- Witness for C8: a lead with only `investor_type` set renders with an
absent qualification block. -/
theorem qualification_block_presence_witness :
    (investor_to_response
      { id := 1, phone := "5550000001", investor_type := some "hnw" } []).qualification
      = none :=
  (qualification_block_presence
    { id := 1, phone := "5550000001", investor_type := some "hnw" } []).2 rfl

/-- C9: in `search_deals`, a property matches a non-empty free-text term
iff the term is a case-insensitive substring of its name OR of its
summary, and that filter is conjoined with the status, deal_type and
minimum_investment filters (the match with the term present equals the
match without it AND the two-column text test); the returned total counts
exactly the rows matching the full conjunction. -/
theorem search_deals_text_filter (status deal_type : Option String)
    (mim : Option Int) (term : String) (p : PropertyRow)
    (hterm : term.isEmpty = false) :
    (deal_matches status deal_type mim (some term) p = true ↔
      (deal_matches status deal_type mim none p = true ∧
       (strContainsCI p.name term = true ∨
        ∃ s, p.summary = some s ∧ strContainsCI s term = true))) ∧
    (∀ deals skip limit,
      (search_deals deals status deal_type mim (some term) skip limit).2
        = (deals.filter (deal_matches status deal_type mim (some term))).length) := by
  constructor
  · simp only [deal_matches, hterm, Bool.and_eq_true, Bool.or_eq_true,
      Bool.if_false_left, Bool.and_true]
    cases hs : p.summary <;> simp [hs]
  · intro deals skip limit
    rfl

/-- Witness for C9 at a concrete deal and term (case-insensitive match
through the summary column only). -/
theorem search_deals_text_filter_witness :
    deal_matches none none none (some "WATER")
      { id := 1, name := "Harbor Fund", deal_type := "equity",
        summary := some "waterfront complex" } = true := by
  have h := (search_deals_text_filter none none none "WATER"
    { id := 1, name := "Harbor Fund", deal_type := "equity",
      summary := some "waterfront complex" } (by decide)).1
  exact h.mpr ⟨by decide, Or.inr ⟨"waterfront complex", rfl, by decide⟩⟩

set_option maxRecDepth 4000 in
/-- C3: a stage-update request whose stage is outside `VALID_STAGES` is
rejected with a 400 error whose detail enumerates the seven valid
values, with no repository call (empty trace) and an unchanged database
(so the lead stage and StageHistory are untouched). -/
theorem update_lead_stage_rejects_invalid (db : DB) (id : Nat)
    (sd : StageUpdateRequest) (h : sd.stage ∉ VALID_STAGES) :
    update_lead_stage db id sd =
      (.error { status := 400, detail := invalid_stage_detail }, db, ([] : List String)) ∧
    ∀ v ∈ VALID_STAGES, v.data <:+: invalid_stage_detail.data := by
  refine ⟨by simp [update_lead_stage, h], by decide⟩

/-- Witness for C3: rejecting the stage value "qualified" on a concrete
one-lead database. -/
theorem update_lead_stage_rejects_invalid_witness :
    update_lead_stage { investors := [{ id := 1, phone := "5550000001" }] } 1
      { stage := "qualified", notes := none } =
      (.error { status := 400, detail := invalid_stage_detail },
       { investors := [{ id := 1, phone := "5550000001" }] }, ([] : List String)) :=
  (update_lead_stage_rejects_invalid _ 1 { stage := "qualified", notes := none }
    (by decide)).1

/-- C5: `search_leads` returns (page, total) where the total is the
number of leads matching the filter conjunction before offset/limit
(hence identical on every page), and the page holds
`min limit (total - skip)` leads. -/
theorem search_leads_count_before_pagination (db : DB) (stage : Option String)
    (score_min score_max capital_min capital_max : Option Int)
    (date_from date_to : Option Nat) (search : Option String)
    (sort_by sort_order : String) (skip limit : Nat) :
    (search_leads db stage score_min score_max capital_min capital_max
        date_from date_to search sort_by sort_order skip limit).2
      = (db.investors.filter (lead_matches stage score_min score_max
          capital_min capital_max date_from date_to search)).length ∧
    (search_leads db stage score_min score_max capital_min capital_max
        date_from date_to search sort_by sort_order skip limit).1.length
      = min limit ((db.investors.filter (lead_matches stage score_min score_max
          capital_min capital_max date_from date_to search)).length - skip) := by
  constructor
  · rfl
  · simp only [search_leads]
    split <;> simp [List.length_take, List.length_drop, length_sortWith]

lemma build_investor_fields (newId : Nat) (req : LeadSubmissionRequest)
    (f : Option String → Option Int) :
    (build_investor newId req f).id = newId ∧
    (build_investor newId req f).phone = req.phoneNumber ∧
    (build_investor newId req f).stage = "new_lead" := by
  cases hq : req.qualification <;> simp [build_investor, hq]

lemma find?_map_replace (id : Nat) (upd : InvestorProfile) (hupd : upd.id = id)
    (l : List InvestorProfile) (inv : InvestorProfile)
    (h : l.find? (fun i => i.id == id) = some inv) :
    (l.map (fun i => if i.id == id then upd else i)).find? (fun i => i.id == id)
      = some upd := by
  induction l with
  | nil => simp at h
  | cons a t ih =>
    by_cases ha : (a.id == id) = true
    · have hupd' : (upd.id == id) = true := by simp [hupd]
      rw [List.map_cons, if_pos ha]
      exact List.find?_cons_of_pos (p := fun i : InvestorProfile => i.id == id) _ hupd'
    · have h' : t.find? (fun i => i.id == id) = some inv := by
        rwa [List.find?_cons_of_neg (p := fun i : InvestorProfile => i.id == id) _ ha] at h
      rw [List.map_cons, if_neg ha,
        List.find?_cons_of_neg (p := fun i : InvestorProfile => i.id == id) _ ha]
      exact ih h'

lemma update_stage_found (db : DB) (id : Nat) (s cb : String)
    (n : Option String) (inv : InvestorProfile)
    (h : db_get db id = some inv) :
    update_stage db id s cb n =
      (some { inv with stage := s, updated_at := db.clock },
       { db with
          investors := db.investors.map
            (fun i => if i.id == id then { inv with stage := s, updated_at := db.clock } else i),
          stage_history := db.stage_history ++
            [{ investor_id := id, from_stage := some inv.stage, to_stage := s,
               changed_by := cb, notes := n, changed_at := db.clock }],
          clock := db.clock + 1 }) := by
  simp [update_stage, h]

lemma db_get_update_stage (db : DB) (id : Nat) (s cb : String)
    (n : Option String) (inv : InvestorProfile)
    (h : db_get db id = some inv) :
    db_get (update_stage db id s cb n).2 id
      = some { inv with stage := s, updated_at := db.clock } := by
  have hid : inv.id = id := by
    have := List.find?_some h
    simpa using this
  rw [update_stage_found db id s cb n inv h]
  exact find?_map_replace id { inv with stage := s, updated_at := db.clock }
    hid db.investors inv h

lemma history_of_update_stage (db : DB) (id : Nat) (s cb : String)
    (n : Option String) (inv : InvestorProfile)
    (h : db_get db id = some inv) :
    history_of (update_stage db id s cb n).2 id
      = history_of db id ++
        [{ investor_id := id, from_stage := some inv.stage, to_stage := s,
           changed_by := cb, notes := n, changed_at := db.clock }] := by
  rw [update_stage_found db id s cb n inv h]
  simp [history_of, List.filter_append]

lemma lastTo_append (p : Option String) (l : List StageHistoryRow)
    (r : StageHistoryRow) : lastTo p (l ++ [r]) = some r.to_stage := by
  induction l generalizing p with
  | nil => rfl
  | cons a t ih => simpa [lastTo] using ih (some a.to_stage)

lemma chainedFrom_append (p : Option String) (l : List StageHistoryRow)
    (r : StageHistoryRow) :
    chainedFrom p (l ++ [r])
      = (chainedFrom p l && (r.from_stage == lastTo p l)) := by
  induction l generalizing p with
  | nil => simp [chainedFrom, lastTo]
  | cons a t ih => simp [chainedFrom, lastTo, ih, Bool.and_assoc]

lemma stage_inv_update (db : DB) (id : Nat) (inv : InvestorProfile)
    (hi : stage_inv db id inv) (s cb : String) (n : Option String) :
    stage_inv (update_stage db id s cb n).2 id
      { inv with stage := s, updated_at := db.clock } ∧
    (history_of (update_stage db id s cb n).2 id).length
      = (history_of db id).length + 1 := by
  obtain ⟨hget, hchain, hlast⟩ := hi
  have hrow := history_of_update_stage db id s cb n inv hget
  refine ⟨⟨db_get_update_stage db id s cb n inv hget, ?_, ?_⟩, ?_⟩
  · rw [hrow, chainedFrom_append, hchain, hlast]
    simp
  · rw [hrow, lastTo_append]
  · rw [hrow]
    simp

lemma apply_updates_inv (id : Nat) (us : List StageUpd) :
    ∀ (db : DB) (inv : InvestorProfile), stage_inv db id inv →
    ∃ inv2, stage_inv (apply_updates db id us) id inv2 ∧
      (history_of (apply_updates db id us) id).length
        = (history_of db id).length + us.length := by
  induction us with
  | nil =>
    intro db inv hi
    exact ⟨inv, hi, by simp [apply_updates]⟩
  | cons u rest ih =>
    intro db inv hi
    obtain ⟨hinv2, hlen⟩ := stage_inv_update db id inv hi u.stage u.changed_by u.notes
    obtain ⟨inv3, hi3, hlen3⟩ := ih _ _ hinv2
    refine ⟨inv3, ?_, ?_⟩
    · simpa [apply_updates] using hi3
    · have : apply_updates db id (u :: rest)
          = apply_updates (update_stage db id u.stage u.changed_by u.notes).2 id rest := rfl
      rw [this, hlen3, hlen]
      simp only [List.length_cons]
      omega

lemma submit_lead_fresh (db : DB) (newId : Nat) (req : LeadSubmissionRequest)
    (xff host ua : Option String)
    (hc : req.consent = true)
    (hphone : get_by_phone db req.phoneNumber = none) :
    submit_lead db newId req xff host ua =
      (.ok { success := true, message := "Lead submitted successfully",
             leadId := toString newId },
       { db with
          investors := db.investors ++ [inv_created db newId req parse_capital],
          consents := db.consents ++ [consent_created db newId xff host ua],
          stage_history := db.stage_history ++ [creation_row db newId],
          clock := db.clock + 1 + 1 + 1 }) := by
  have hid : (build_investor newId req parse_capital).id = newId :=
    (build_investor_fields newId req parse_capital).1
  simp [submit_lead, hc, hphone, repo_create, add_consent,
    inv_created, consent_created, creation_row, hid]

lemma submit_lead_existing (db : DB) (newId : Nat)
    (req : LeadSubmissionRequest) (xff host ua : Option String)
    (ex : InvestorProfile) (hc : req.consent = true)
    (h : get_by_phone db req.phoneNumber = some ex) :
    submit_lead db newId req xff host ua =
      (.ok { success := true, message := "Lead already exists",
             leadId := toString ex.id }, db) := by
  simp [submit_lead, hc, h]

lemma stage_inv_after_submit (db : DB) (newId : Nat)
    (req : LeadSubmissionRequest) (xff host ua : Option String)
    (hc : req.consent = true)
    (hphone : get_by_phone db req.phoneNumber = none)
    (hid : db_get db newId = none)
    (hhist : history_of db newId = []) :
    stage_inv (submit_lead db newId req xff host ua).2 newId
      (inv_created db newId req parse_capital) ∧
    history_of (submit_lead db newId req xff host ua).2 newId
      = [creation_row db newId] := by
  rw [submit_lead_fresh db newId req xff host ua hc hphone]
  have hfields := build_investor_fields newId req parse_capital
  have hinvid : (inv_created db newId req parse_capital).id = newId := hfields.1
  have hstage : (inv_created db newId req parse_capital).stage = "new_lead" :=
    hfields.2.2
  have hh : history_of
      { db with
          investors := db.investors ++ [inv_created db newId req parse_capital],
          consents := db.consents ++ [consent_created db newId xff host ua],
          stage_history := db.stage_history ++ [creation_row db newId],
          clock := db.clock + 1 + 1 + 1 } newId = [creation_row db newId] := by
    have : history_of db newId = [] := hhist
    simp only [history_of] at this ⊢
    simp [List.filter_append, this, creation_row]
  refine ⟨⟨?_, ?_, ?_⟩, hh⟩
  · simp only [db_get] at hid ⊢
    simp only [find?_append_none _ _ _ hid]
    simp [List.find?_cons, hinvid]
  · rw [hh]
    simp [chainedFrom, creation_row]
  · rw [hh]
    simp [lastTo, creation_row, hstage]

/-- C4: for an existing lead, `update_stage` sets the stage and appends
exactly one StageHistory row whose `from_stage` is the prior stage and
`to_stage` the new value; on a missing id it returns none and writes
nothing; and a lead created by `submit_lead` that then receives N stage
updates has exactly N+1 StageHistory rows, chained so that each row's
`from_stage` equals the previous row's `to_stage` (starting from the
null-from creation row). -/
theorem update_stage_history_contract :
    (∀ (db : DB) (id : Nat) (s cb : String) (n : Option String)
       (inv : InvestorProfile), db_get db id = some inv →
       (update_stage db id s cb n).1
         = some { inv with stage := s, updated_at := db.clock } ∧
       db_get (update_stage db id s cb n).2 id
         = some { inv with stage := s, updated_at := db.clock } ∧
       (update_stage db id s cb n).2.stage_history
         = db.stage_history ++
           [{ investor_id := id, from_stage := some inv.stage, to_stage := s,
              changed_by := cb, notes := n, changed_at := db.clock }]) ∧
    (∀ (db : DB) (id : Nat) (s cb : String) (n : Option String),
       db_get db id = none → update_stage db id s cb n = (none, db)) ∧
    (∀ (db : DB) (newId : Nat) (req : LeadSubmissionRequest)
       (xff host ua : Option String) (us : List StageUpd),
       req.consent = true →
       get_by_phone db req.phoneNumber = none →
       db_get db newId = none →
       history_of db newId = [] →
       (history_of (apply_updates (submit_lead db newId req xff host ua).2 newId us)
          newId).length = us.length + 1 ∧
       chainedFrom none
         (history_of (apply_updates (submit_lead db newId req xff host ua).2 newId us)
            newId) = true) := by
  refine ⟨?_, ?_, ?_⟩
  · intro db id s cb n inv h
    exact ⟨by rw [update_stage_found db id s cb n inv h],
           db_get_update_stage db id s cb n inv h,
           by rw [update_stage_found db id s cb n inv h]⟩
  · intro db id s cb n h
    simp [update_stage, h]
  · intro db newId req xff host ua us hc hphone hid hhist
    obtain ⟨hinv, hone⟩ :=
      stage_inv_after_submit db newId req xff host ua hc hphone hid hhist
    obtain ⟨inv2, hi2, hlen⟩ := apply_updates_inv newId us _ _ hinv
    refine ⟨?_, hi2.2.1⟩
    rw [hlen, hone]
    simp [Nat.add_comm]

/-- Witness for C4: a concrete lead created by `submit_lead` and given
two stage updates has three chained StageHistory rows; a missing id is a
no-op. -/
theorem update_stage_history_contract_witness :
    (history_of
      (apply_updates
        (submit_lead {} 1
          { phoneNumber := "5551234567", consent := true,
            timestamp := "2026-01-01T00:00:00Z" } none none none).2 1
        [{ stage := "call_dispatched", changed_by := "admin", notes := none },
         { stage := "closed", changed_by := "admin", notes := none }]) 1).length = 3 ∧
    update_stage {} 9 "closed" "admin" none = (none, {}) := by
  constructor
  · have h := (update_stage_history_contract.2.2 {} 1
      { phoneNumber := "5551234567", consent := true,
        timestamp := "2026-01-01T00:00:00Z" } none none none
      [{ stage := "call_dispatched", changed_by := "admin", notes := none },
       { stage := "closed", changed_by := "admin", notes := none }]
      rfl rfl rfl rfl).1
    simpa using h
  · exact update_stage_history_contract.2.1 {} 9 "closed" "admin" none rfl

lemma investor_to_response_stage (l : InvestorProfile)
    (hist : List StageHistoryRow) :
    (investor_to_response l hist).stage = l.stage := rfl

lemma update_lead_stage_found (db : DB) (id : Nat) (sd : StageUpdateRequest)
    (hv : sd.stage ∈ VALID_STAGES) (inv : InvestorProfile)
    (h : db_get db id = some inv) :
    update_lead_stage db id sd =
      (.ok (investor_to_response
              { inv with stage := sd.stage, updated_at := db.clock }
              ((history_of (update_stage db id sd.stage "admin" sd.notes).2 id).reverse)),
       (update_stage db id sd.stage "admin" sd.notes).2,
       ["update_stage", "get_with_relations"]) := by
  have h2 := db_get_update_stage db id sd.stage "admin" sd.notes inv h
  have hfound := update_stage_found db id sd.stage "admin" sd.notes inv h
  unfold update_lead_stage
  rw [if_neg (by simp [hv])]
  generalize hq : update_stage db id sd.stage "admin" sd.notes = q at h2 hfound ⊢
  obtain ⟨res, db2⟩ := q
  simp only at h2
  rw [Prod.mk.injEq] at hfound
  obtain ⟨hres, hdb2⟩ := hfound
  rw [hdb2] at h2
  simp only [beq_iff_eq] at h2 hdb2
  rw [hres]
  simp [get_with_relations, h2, hdb2]

lemma repeat_update_growth (id : Nat) (s : String) (notes : Option String)
    (hv : s ∈ VALID_STAGES) :
    ∀ (k : Nat) (db : DB) (inv : InvestorProfile),
      db_get db id = some inv → inv.stage = s →
      ∃ inv2, db_get (repeat_update db id s notes k) id = some inv2 ∧
        inv2.stage = s ∧
        (history_of (repeat_update db id s notes k) id).length
          = (history_of db id).length + k := by
  intro k
  induction k with
  | zero =>
    intro db inv h hs
    exact ⟨inv, h, hs, by simp [repeat_update]⟩
  | succ k ih =>
    intro db inv h hs
    have hdb1 : (update_lead_stage db id { stage := s, notes := notes }).2.1
        = (update_stage db id s "admin" notes).2 := by
      rw [update_lead_stage_found db id { stage := s, notes := notes } hv inv h]
    have hstep : repeat_update db id s notes (k + 1)
        = repeat_update (update_stage db id s "admin" notes).2 id s notes k := by
      show repeat_update (update_lead_stage db id { stage := s, notes := notes }).2.1
          id s notes k = _
      rw [hdb1]
    have h2 := db_get_update_stage db id s "admin" notes inv h
    obtain ⟨inv2, hget2, hst2, hlen2⟩ := ih (update_stage db id s "admin" notes).2
      { inv with stage := s, updated_at := db.clock } h2 rfl
    refine ⟨inv2, by rwa [hstep], hst2, ?_⟩
    rw [hstep, hlen2, history_of_update_stage db id s "admin" notes inv h]
    simp
    omega

/-- C10: `updateStage` has no self-transition guard: for an existing
lead, updating to its current (valid) stage succeeds through the API,
appends a StageHistory row with `from_stage = to_stage`, leaves the
stage unchanged, and k repeated identical updates grow the history by k
rows without changing the stage. -/
theorem no_self_transition_guard (db : DB) (id : Nat)
    (inv : InvestorProfile) (notes : Option String)
    (h : db_get db id = some inv) (hv : inv.stage ∈ VALID_STAGES) :
    (∃ resp, (update_lead_stage db id { stage := inv.stage, notes := notes }).1
        = .ok resp ∧ resp.stage = inv.stage) ∧
    ((update_lead_stage db id { stage := inv.stage, notes := notes }).2.1.stage_history
      = db.stage_history ++
        [{ investor_id := id, from_stage := some inv.stage, to_stage := inv.stage,
           changed_by := "admin", notes := notes, changed_at := db.clock }]) ∧
    (∀ k, ∃ inv2,
       db_get (repeat_update db id inv.stage notes k) id = some inv2 ∧
       inv2.stage = inv.stage ∧
       (history_of (repeat_update db id inv.stage notes k) id).length
         = (history_of db id).length + k) := by
  have hval := update_lead_stage_found db id
    { stage := inv.stage, notes := notes } hv inv h
  refine ⟨⟨_, by rw [hval], rfl⟩, ?_, ?_⟩
  · rw [hval]
    show (update_stage db id inv.stage "admin" notes).2.stage_history = _
    rw [update_stage_found db id inv.stage "admin" notes inv h]
  · intro k
    exact repeat_update_growth id inv.stage notes hv k db inv h rfl

/-- Witness for C10: a concrete lead in stage new_lead updated to
new_lead twice gains two self-loop history rows and keeps its stage. -/
theorem no_self_transition_guard_witness :
    ((update_lead_stage { investors := [{ id := 1, phone := "5550000001" }] } 1
        { stage := "new_lead", notes := none }).2.1.stage_history
      = [{ investor_id := 1, from_stage := some "new_lead", to_stage := "new_lead",
           changed_by := "admin", notes := none, changed_at := 0 }]) ∧
    (∃ inv2,
       db_get (repeat_update { investors := [{ id := 1, phone := "5550000001" }] } 1
         "new_lead" none 2) 1 = some inv2 ∧
       inv2.stage = "new_lead" ∧
       (history_of (repeat_update { investors := [{ id := 1, phone := "5550000001" }] } 1
         "new_lead" none 2) 1).length = 2) := by
  have h := no_self_transition_guard { investors := [{ id := 1, phone := "5550000001" }] }
    1 { id := 1, phone := "5550000001" } none rfl (by decide)
  refine ⟨by simpa using h.2.1, ?_⟩
  obtain ⟨inv2, h1, h2, h3⟩ := h.2.2 2
  exact ⟨inv2, h1, h2, by simpa using h3⟩

/-- C2: lead intake is idempotent per phone number: when the phone
already has a lead, `process_lead` returns that lead with the database
untouched, and `submit_lead` (consent given) returns the existing id
with the database untouched; submitting the same request twice yields
the same leadId on both calls and leaves exactly one Consent row and
exactly the single creation StageHistory row for that lead. -/
theorem intake_idempotent_per_phone :
    (∀ (db : DB) (newId : Nat) (req : LeadSubmissionRequest)
       (ip ua : Option String) (ex : InvestorProfile),
       get_by_phone db req.phoneNumber = some ex →
       process_lead db newId req ip ua = (ex, db)) ∧
    (∀ (db : DB) (newId : Nat) (req : LeadSubmissionRequest)
       (xff host ua : Option String) (ex : InvestorProfile),
       req.consent = true →
       get_by_phone db req.phoneNumber = some ex →
       submit_lead db newId req xff host ua =
         (.ok { success := true, message := "Lead already exists",
                leadId := toString ex.id }, db)) ∧
    (∀ (db : DB) (newId newId2 : Nat) (req : LeadSubmissionRequest)
       (xff host ua xff2 host2 ua2 : Option String),
       req.consent = true →
       get_by_phone db req.phoneNumber = none →
       db_get db newId = none →
       consents_of db newId = [] →
       history_of db newId = [] →
       (submit_lead (submit_lead db newId req xff host ua).2 newId2 req xff2 host2 ua2).2
         = (submit_lead db newId req xff host ua).2 ∧
       (submit_lead (submit_lead db newId req xff host ua).2 newId2 req xff2 host2 ua2).1
         = .ok { success := true, message := "Lead already exists",
                 leadId := toString newId } ∧
       (submit_lead db newId req xff host ua).1
         = .ok { success := true, message := "Lead submitted successfully",
                 leadId := toString newId } ∧
       (consents_of (submit_lead db newId req xff host ua).2 newId).length = 1 ∧
       history_of (submit_lead db newId req xff host ua).2 newId
         = [creation_row db newId]) := by
  refine ⟨?_, ?_, ?_⟩
  · intro db newId req ip ua ex h
    simp [process_lead, h]
  · intro db newId req xff host ua ex hc h
    exact submit_lead_existing db newId req xff host ua ex hc h
  · intro db newId newId2 req xff host ua xff2 host2 ua2 hc hphone hid hcons hhist
    have hfields := build_investor_fields newId req parse_capital
    have hfresh := submit_lead_fresh db newId req xff host ua hc hphone
    have hsub := stage_inv_after_submit db newId req xff host ua hc hphone hid hhist
    have hphone1 : get_by_phone (submit_lead db newId req xff host ua).2
        req.phoneNumber = some (inv_created db newId req parse_capital) := by
      rw [hfresh]
      simp only [get_by_phone] at hphone ⊢
      rw [find?_append_none _ _ _ hphone]
      have hp : (inv_created db newId req parse_capital).phone = req.phoneNumber :=
        hfields.2.1
      simp [List.find?, hp]
    have hidc : (inv_created db newId req parse_capital).id = newId := hfields.1
    have h2nd := submit_lead_existing (submit_lead db newId req xff host ua).2
      newId2 req xff2 host2 ua2 (inv_created db newId req parse_capital) hc hphone1
    refine ⟨by rw [h2nd], ?_, by rw [hfresh], ?_, hsub.2⟩
    · rw [h2nd, hidc]
    · rw [hfresh]
      simp only [consents_of] at hcons ⊢
      simp [List.filter_append, hcons, consent_created]

/-- Witness for C2: a concrete double submission of the same phone. -/
theorem intake_idempotent_per_phone_witness :
    (submit_lead
      (submit_lead {} 1
        { phoneNumber := "5551234567", consent := true,
          timestamp := "2026-01-01T00:00:00Z" } none none none).2 2
      { phoneNumber := "5551234567", consent := true,
        timestamp := "2026-01-01T00:00:00Z" } none none none).1
      = .ok { success := true, message := "Lead already exists",
              leadId := toString (1 : Nat) } ∧
    (consents_of
      (submit_lead {} 1
        { phoneNumber := "5551234567", consent := true,
          timestamp := "2026-01-01T00:00:00Z" } none none none).2 1).length = 1 := by
  have h := intake_idempotent_per_phone.2.2 {} 1 2
    { phoneNumber := "5551234567", consent := true,
      timestamp := "2026-01-01T00:00:00Z" } none none none none none none
    rfl rfl rfl rfl rfl
  exact ⟨h.2.1, h.2.2.2.1⟩

/-- C1: the creation StageHistory row at intake. The submit-lead entry
point persists, with the new lead, exactly one creation row
(from_stage = none, to_stage = new_lead, changed_by = system) — but the
Lead Intake Service's `process_lead` persists NO StageHistory row on
any input (its own docstring lists recording the initial stage change
as a step), so the claim fails on that code path. -/
theorem intake_creation_history_row :
    (∀ (db : DB) (newId : Nat) (req : LeadSubmissionRequest)
       (xff host ua : Option String),
       req.consent = true →
       get_by_phone db req.phoneNumber = none →
       history_of db newId = [] →
       history_of (submit_lead db newId req xff host ua).2 newId
         = [creation_row db newId] ∧
       (creation_row db newId).from_stage = none ∧
       (creation_row db newId).to_stage = "new_lead" ∧
       (creation_row db newId).changed_by = "system") ∧
    (∀ (db : DB) (newId : Nat) (req : LeadSubmissionRequest)
       (ip ua : Option String),
       (process_lead db newId req ip ua).2.stage_history = db.stage_history) := by
  constructor
  · intro db newId req xff host ua hc hphone hhist
    refine ⟨?_, rfl, rfl, rfl⟩
    rw [submit_lead_fresh db newId req xff host ua hc hphone]
    simp only [history_of] at hhist ⊢
    simp [List.filter_append, hhist, creation_row]
  · intro db newId req ip ua
    rcases hp : get_by_phone db req.phoneNumber with _ | ex <;>
      simp [process_lead, hp, repo_create, add_consent]

/-- Witness for C1: on an empty database, the submit-lead path leaves
exactly the creation row while process_lead leaves no history row. -/
theorem intake_creation_history_row_witness :
    history_of
      (submit_lead {} 1
        { phoneNumber := "5551234567", consent := true,
          timestamp := "2026-01-01T00:00:00Z" } none none none).2 1
      = [creation_row {} 1] ∧
    (process_lead {} 1
      { phoneNumber := "5551234567", consent := true,
        timestamp := "2026-01-01T00:00:00Z" } none none).2.stage_history = [] := by
  constructor
  · exact (intake_creation_history_row.1 {} 1
      { phoneNumber := "5551234567", consent := true,
        timestamp := "2026-01-01T00:00:00Z" } none none none rfl rfl rfl).1
  · have h := intake_creation_history_row.2 {} 1
      { phoneNumber := "5551234567", consent := true,
        timestamp := "2026-01-01T00:00:00Z" } none none
    simpa using h

end BKX
